import Mathlib

/-!
Verification of the CogniSense multimodal buffering, feature-fusion and
ensemble-scoring pipeline.

The Python sources are shallowly embedded: machine floats become exact
rationals, numpy arrays become lists, Python dicts with distinct keys become
association lists in insertion order, and foreign numeric library routines
(numpy sqrt and arctan2, librosa pyin, mfcc, rms, spectral and onset
analyses) become explicit function parameters collected in a `Prims`
structure, so every theorem quantifies over their behaviour.
-/

namespace CogniSense

/-- A single chunk of captured audio data (capture/audio_capture.py,
dataclass AudioChunk). -/
structure AudioChunk where
  timestamp : ℚ
  samples : List ℚ
  sample_rate : ℕ
  duration_sec : ℚ
deriving DecidableEq

/-- Type of keyboard event (capture/keystroke_logger.py, KeyEventType). -/
inductive KeyEventType where
  | press
  | release
deriving DecidableEq

/-- A single keyboard event (capture/keystroke_logger.py, KeyEvent). -/
structure KeyEvent where
  key : String
  event_type : KeyEventType
  timestamp : ℚ
  is_error_key : Bool
deriving DecidableEq

/-- Type of mouse event (capture/mouse_tracker.py, MouseEventType). -/
inductive MouseEventType where
  | move
  | click
  | scroll
deriving DecidableEq

/-- A single mouse event (capture/mouse_tracker.py, MouseEvent). -/
structure MouseEvent where
  event_type : MouseEventType
  x : ℤ
  y : ℤ
  timestamp : ℚ
  button : Option String
  pressed : Option Bool
  scroll_dx : ℤ
  scroll_dy : ℤ
deriving DecidableEq

/-- Single frame of extracted face data (capture/webcam_capture.py,
LandmarkFrame).  The numpy (468, 3) landmark array is embedded as a total
coordinate function together with its row count, and the head-pose dict as
its three named entries. -/
structure LandmarkFrame where
  timestamp : ℚ
  landmarks : ℕ → ℚ × ℚ × ℚ
  numLandmarks : ℕ
  left_ear : ℚ
  right_ear : ℚ
  avg_ear : ℚ
  blink_detected : Bool
  headPitch : ℚ
  headYaw : ℚ
  headRoll : ℚ
  face_detected : Bool

/-- One drop-oldest push: if the queue is below capacity the chunk is
appended, otherwise the oldest (front) element is evicted first
(audio_capture.py lines 96-104). -/
def queuePush (cap : ℕ) (q : List AudioChunk) (c : AudioChunk) : List AudioChunk :=
  if q.length < cap then q ++ [c] else q.drop 1 ++ [c]

/-- Pushing a whole sequence of chunks, oldest first, with no pops. -/
def queuePushAll (cap : ℕ) (q : List AudioChunk) (cs : List AudioChunk) : List AudioChunk :=
  cs.foldl (queuePush cap) q

/-- Visual-buffer trim: pop from the head while it is older than the
cutoff (fusion.py lines 114-118). -/
def trimVisualBuffer (cutoff : ℚ) : List LandmarkFrame → List LandmarkFrame
  | [] => []
  | f :: rest => if f.timestamp < cutoff then trimVisualBuffer cutoff rest else f :: rest

/-- Keystroke-buffer trim: keep events with timestamp at or after the
cutoff (fusion.py lines 120-125). -/
def trimKeystrokeBuffer (cutoff : ℚ) (es : List KeyEvent) : List KeyEvent :=
  es.filter fun e => cutoff ≤ e.timestamp

/-- Mouse-buffer trim: keep events with timestamp at or after the cutoff
(fusion.py lines 127-132). -/
def trimMouseBuffer (cutoff : ℚ) (es : List MouseEvent) : List MouseEvent :=
  es.filter fun e => cutoff ≤ e.timestamp

/-- Audio-buffer trim: keep chunks with timestamp at or after the cutoff
(fusion.py lines 134-139). -/
def trimAudioBuffer (cutoff : ℚ) (cs : List AudioChunk) : List AudioChunk :=
  cs.filter fun c => cutoff ≤ c.timestamp

/-- A concrete audio chunk used for evaluating theorems on explicit inputs. -/
def chunkAt (t : ℚ) : AudioChunk :=
  { timestamp := t, samples := [], sample_rate := 16000, duration_sec := 1 }

/-- A concrete landmark frame with the given timestamp, used for evaluating
theorems on explicit inputs. -/
def frameAt (t : ℚ) : LandmarkFrame :=
  { timestamp := t, landmarks := fun _ => (0, 0, 0), numLandmarks := 478,
    left_ear := 0, right_ear := 0, avg_ear := 0, blink_detected := false,
    headPitch := 0, headYaw := 0, headRoll := 0, face_detected := true }

/-- A concrete keystroke event with the given timestamp. -/
def keyEvAt (t : ℚ) : KeyEvent :=
  { key := "a", event_type := .press, timestamp := t, is_error_key := false }

/-- Per-model combination weights (ensemble.py line 49, the weights dict
with entries rf, xgb, svm). -/
structure EnsembleWeights where
  rf : ℚ
  xgb : ℚ
  svm : ℚ
deriving DecidableEq

/-- A base classifier behind the four-operation contract
(ml/models/random_forest.py, xgboost_clf.py, svm_clf.py): probability
rows, labels, reported feature importance, stored feature names and the
trained flag. -/
structure BaseModel (ι : Type) where
  proba : ι → Fin 3 → ℚ
  label : ι → Fin 3
  featImportance : List (String × ℚ)
  featureNames : List String
  isTrained : Bool

/-- The ensemble classifier state (ensemble.py, class EnsembleModel). -/
structure EnsembleModel (ι : Type) where
  method : String
  weights : EnsembleWeights
  rf : BaseModel ι
  xgb : BaseModel ι
  svm : BaseModel ι
  featureNames : List String
  isTrained : Bool

/-- EnsembleModel.__init__ (ensemble.py lines 43-57): stores the method,
defaults absent weights to 1.0 each, keeps the given base models, and
starts untrained.  No validation of the weights is performed. -/
def ensembleInit {ι : Type} (method : String) (weights : Option EnsembleWeights)
    (rf xgb svm : BaseModel ι) : EnsembleModel ι :=
  { method := method, weights := weights.getD ⟨1, 1, 1⟩,
    rf := rf, xgb := xgb, svm := svm, featureNames := [], isTrained := false }

/-- The divisor `total_w = w_rf + w_xgb + w_svm` of predict_proba
(ensemble.py line 104). -/
def totalWeight {ι : Type} (m : EnsembleModel ι) : ℚ :=
  m.weights.rf + m.weights.xgb + m.weights.svm

/-- EnsembleModel.predict_proba (ensemble.py lines 94-112): per row and
class, the weighted sum of the three base probabilities divided by the
total weight.  No check guards a zero total weight; rational division
by zero is total (yielding 0) where Python float division yields
non-finite values — in neither semantics is an error raised. -/
def predict_proba {ι : Type} (m : EnsembleModel ι) (X : List ι) : List (Fin 3 → ℚ) :=
  X.map fun x i =>
    (m.weights.rf * m.rf.proba x i + m.weights.xgb * m.xgb.proba x i
      + m.weights.svm * m.svm.proba x i) / totalWeight m

/-- Sum of a per-class probability row over the three classes. -/
def rowSum (p : Fin 3 → ℚ) : ℚ := p 0 + p 1 + p 2

/-- np.argmax on a length-3 row: the first (lowest) index attaining the
maximum (ensemble.py line 117). -/
def argmaxRow (p : Fin 3 → ℚ) : Fin 3 :=
  if p 0 < p 1 then (if p 1 < p 2 then 2 else 1)
  else (if p 0 < p 2 then 2 else 0)

/-- EnsembleModel.predict (ensemble.py lines 114-117): row-wise argmax of
predict_proba. -/
def predict {ι : Type} (m : EnsembleModel ι) (X : List ι) : List (Fin 3) :=
  (predict_proba m X).map argmaxRow

/-- LABEL_MAP (ensemble.py line 27). -/
def labelMap : Fin 3 → String
  | 0 => "low"
  | 1 => "medium"
  | 2 => "high"

/-- The joblib bundle written by save and read by load (ensemble.py lines
164-193); each dict key may be absent, and an absent key raises KeyError
when accessed. -/
structure SavedBundle (ι : Type) where
  rf : Option (ι → Fin 3 → ℚ)
  xgb : Option (ι → Fin 3 → ℚ)
  svm : Option (ι → Fin 3 → ℚ)
  feature_names : Option (List String)
  weights : Option EnsembleWeights
  method : Option String

/-- EnsembleModel.save (ensemble.py lines 164-175): every field of the
bundle is present. -/
def ensembleSave {ι : Type} (m : EnsembleModel ι) : SavedBundle ι :=
  { rf := some m.rf.proba, xgb := some m.xgb.proba, svm := some m.svm.proba,
    feature_names := some m.featureNames, weights := some m.weights,
    method := some m.method }

/-- EnsembleModel.load (ensemble.py lines 177-193), with Python's in-place
mutation made explicit: the bundle keys are read in source order (rf, xgb,
svm, feature_names, weights, method); the first missing key aborts with an
error, returning the state as mutated so far, exactly as a raised KeyError
leaves the partially updated object behind. -/
def ensembleLoad {ι : Type} (m : EnsembleModel ι) (d : SavedBundle ι) :
    EnsembleModel ι × Option String :=
  match d.rf with
  | none => (m, some "KeyError: rf")
  | some prf =>
    let m1 := { m with rf := { m.rf with proba := prf } }
    match d.xgb with
    | none => (m1, some "KeyError: xgb")
    | some pxgb =>
      let m2 := { m1 with xgb := { m1.xgb with proba := pxgb } }
      match d.svm with
      | none => (m2, some "KeyError: svm")
      | some psvm =>
        let m3 := { m2 with svm := { m2.svm with proba := psvm } }
        match d.feature_names with
        | none => (m3, some "KeyError: feature_names")
        | some names =>
          let m4 := { m3 with featureNames := names }
          let m5 := { m4 with rf := { m4.rf with featureNames := names } }
          let m6 := { m5 with xgb := { m5.xgb with featureNames := names } }
          let m7 := { m6 with svm := { m6.svm with featureNames := names } }
          match d.weights with
          | none => (m7, some "KeyError: weights")
          | some w =>
            let m8 := { m7 with weights := w }
            match d.method with
            | none => (m8, some "KeyError: method")
            | some meth =>
              let m9 := { m8 with method := meth }
              let m10 := { m9 with rf := { m9.rf with isTrained := true } }
              let m11 := { m10 with xgb := { m10.xgb with isTrained := true } }
              let m12 := { m11 with svm := { m11.svm with isTrained := true } }
              ({ m12 with isTrained := true }, none)

/-- A base classifier over a single dummy input returning the given
constant probability on every class, used for evaluating theorems on
explicit inputs. -/
def baseConst (q : ℚ) : BaseModel Unit :=
  { proba := fun _ _ => q, label := fun _ => 0, featImportance := [],
    featureNames := [], isTrained := true }

/-- A concrete ensemble with unit weights over three constant base
classifiers each returning the uniform row. -/
def unitEnsemble : EnsembleModel Unit :=
  { method := "voting", weights := ⟨1, 1, 1⟩, rf := baseConst (1/3),
    xgb := baseConst (1/3), svm := baseConst (1/3), featureNames := [],
    isTrained := true }

/-- An ensemble state before any load, with distinguishable constant base
classifiers, used for evaluating the load theorems on explicit inputs. -/
def modelBefore : EnsembleModel Unit :=
  { method := "voting", weights := ⟨1, 1, 1⟩, rf := baseConst 0,
    xgb := baseConst 0, svm := baseConst 0, featureNames := ["f_0"],
    isTrained := false }

/-- A saved bundle holding the three classifiers but no feature-name
ordering. -/
def bundleNoNames : SavedBundle Unit :=
  { rf := some fun _ _ => 1, xgb := some fun _ _ => 1, svm := some fun _ _ => 1,
    feature_names := none, weights := some ⟨2, 2, 2⟩, method := some "voting" }

/-- Whether the first character list is a prefix of the second, comparing
code points. -/
def charListIsPre : List Char → List Char → Bool
  | [], _ => true
  | _ :: _, [] => false
  | c :: ps, d :: ss => c.toNat == d.toNat && charListIsPre ps ss

/-- Python `s.startswith(pre)`. -/
def strStarts (s pre : String) : Bool := charListIsPre pre.data s.data

/-- Lexicographic code-point comparison of character lists, as Python
compares strings. -/
def charListLt : List Char → List Char → Bool
  | [], [] => false
  | [], _ :: _ => true
  | _ :: _, [] => false
  | c :: cs, d :: ds =>
    if c.toNat < d.toNat then true
    else if d.toNat < c.toNat then false
    else charListLt cs ds

/-- Python `a <= b` on strings. -/
def strLe (a b : String) : Bool := !(charListLt b.data a.data)

/-- Insert a string into a sorted list (auxiliary to `sortStrings`). -/
def insertStr (x : String) : List String → List String
  | [] => [x]
  | y :: ys => if strLe x y then x :: y :: ys else y :: insertStr x ys

/-- Python `sorted()` on a list of (distinct) string keys: insertion sort
by code-point order. -/
def sortStrings : List String → List String
  | [] => []
  | x :: xs => insertStr x (sortStrings xs)

/-- Round-half-to-even to an integer, the rounding of Python's builtin
`round`. -/
def roundHalfEven (q : ℚ) : ℤ :=
  if Int.fract q < 1/2 then ⌊q⌋
  else if 1/2 < Int.fract q then ⌊q⌋ + 1
  else if ⌊q⌋ % 2 = 0 then ⌊q⌋ else ⌊q⌋ + 1

/-- Python `round(x, 3)`. -/
def round3 (q : ℚ) : ℚ := (roundHalfEven (q * 1000) : ℚ) / 1000

/-- The per-modality accumulation loop of `_compute_modality_scores`
(scoring_service.py lines 115-125): for each importance entry, weight
`abs(importance * feature value)` is added to the visual, behavioral or
audio bucket according to the key's namespace prefix; keys with no known
prefix contribute nothing. -/
def modalitySums (features importance : List (String × ℚ)) : ℚ × ℚ × ℚ :=
  importance.foldl
    (fun acc ni =>
      let weighted := |ni.2 * ((features.lookup ni.1).getD 0)|
      if strStarts ni.1 "vis_" then (acc.1 + weighted, acc.2.1, acc.2.2)
      else if strStarts ni.1 "beh_" then (acc.1, acc.2.1 + weighted, acc.2.2)
      else if strStarts ni.1 "aud_" then (acc.1, acc.2.1, acc.2.2 + weighted)
      else acc)
    (0, 0, 0)

/-- `total = sum(modality_sums.values())` (scoring_service.py line 128). -/
def modalityTotal (features importance : List (String × ℚ)) : ℚ :=
  (modalitySums features importance).1 + (modalitySums features importance).2.1
    + (modalitySums features importance).2.2

/-- `_compute_modality_scores` (scoring_service.py lines 107-131): the
three buckets normalized by their total and rounded to three decimals, or
the fixed fallback triple when the total is not positive. -/
def computeModalityScores (features importance : List (String × ℚ)) : ℚ × ℚ × ℚ :=
  if 0 < modalityTotal features importance then
    (round3 ((modalitySums features importance).1 / modalityTotal features importance),
     round3 ((modalitySums features importance).2.1 / modalityTotal features importance),
     round3 ((modalitySums features importance).2.2 / modalityTotal features importance))
  else (33/100, 33/100, 34/100)

/-- The result of EnsembleModel.predict_with_details (ensemble.py lines
119-150): load level via the fixed label map, the winning probability as
confidence, the full probability triple and each base model's label. -/
structure PredictionDetails where
  load_level : String
  confidence : ℚ
  probLow : ℚ
  probMedium : ℚ
  probHigh : ℚ
  perModelRf : String
  perModelXgb : String
  perModelSvm : String

/-- EnsembleModel.predict_with_details on a single sample. -/
def predict_with_details {ι : Type} (m : EnsembleModel ι) (x : ι) : PredictionDetails :=
  let p := (predict_proba m [x]).headI
  let cls := argmaxRow p
  { load_level := labelMap cls, confidence := p cls,
    probLow := p 0, probMedium := p 1, probHigh := p 2,
    perModelRf := labelMap (m.rf.label x),
    perModelXgb := labelMap (m.xgb.label x),
    perModelSvm := labelMap (m.svm.label x) }

/-- EnsembleModel.feature_importance (ensemble.py lines 152-162): the
rf and xgb importances averaged over the stored feature names; the svm
model is skipped. -/
def feature_importance {ι : Type} (m : EnsembleModel ι) : List (String × ℚ) :=
  m.featureNames.map fun n =>
    (n, (((m.rf.featImportance.lookup n).getD 0)
        + ((m.xgb.featImportance.lookup n).getD 0)) / 2)

/-- A fitted StandardScaler: per-column mean and scale. -/
structure ScalerParams where
  mean : List ℚ
  scale : List ℚ

/-- StandardScaler.transform on one row: componentwise (x - mean) / scale. -/
def transformRow (p : ScalerParams) (xs : List ℚ) : List ℚ :=
  List.zipWith (fun x ms => (x - ms.1) / ms.2) xs (p.mean.zip p.scale)

/-- The ScoringService state (scoring_service.py lines 31-36): the
optional loaded model working on sorted feature rows, the optional
scaler, and the loaded flag. -/
structure ScoringState where
  model : Option (EnsembleModel (List ℚ))
  scaler : Option ScalerParams
  isLoaded : Bool

/-- The result dict of ScoringService.predict, with the per-model entry
as an association list. -/
structure PredOut where
  load_level : String
  confidence : ℚ
  probLow : ℚ
  probMedium : ℚ
  probHigh : ℚ
  modalityVisual : ℚ
  modalityBehavioral : ℚ
  modalityAudio : ℚ
  perModel : List (String × String)

/-- ScoringService._fallback_prediction (scoring_service.py lines
133-164): five fixed threshold rules accumulate a score; the score range
picks the level and a fixed low confidence; the probability and modality
triples are constants. -/
def fallbackPrediction (features : List (String × ℚ)) : PredOut :=
  let score : ℚ :=
    (if 22 < (features.lookup "vis_blink_rate").getD 0 then 1 else 0)
    + (if (15/100 : ℚ) < (features.lookup "beh_error_rate").getD 0 then 1 else 0)
    + (if 30 < (features.lookup "aud_pitch_std").getD 0 then 1 else 0)
    + (if 3 < (features.lookup "vis_head_movement").getD 0 then 1/2 else 0)
    + (if (2/100 : ℚ) < (features.lookup "aud_jitter").getD 0 then 1/2 else 0)
  let lc : String × ℚ :=
    if 2 ≤ score then ("high", 1/2)
    else if 1 ≤ score then ("medium", 2/5)
    else ("low", 2/5)
  { load_level := lc.1, confidence := lc.2,
    probLow := 33/100, probMedium := 34/100, probHigh := 33/100,
    modalityVisual := 33/100, modalityBehavioral := 33/100,
    modalityAudio := 34/100, perModel := [("fallback", lc.1)] }

/-- ScoringService.predict (scoring_service.py lines 72-105): fallback
when no model is loaded; otherwise sort the feature keys, build the value
row, optionally scale it, run predict_with_details and attach the
modality scores. -/
def scoringPredict (st : ScoringState) (features : List (String × ℚ)) : PredOut :=
  match st.model, st.isLoaded with
  | some m, true =>
    let names := sortStrings (features.map Prod.fst)
    let X := names.map fun k => (features.lookup k).getD 0
    let Xs := match st.scaler with
      | some p => transformRow p X
      | none => X
    let d := predict_with_details m Xs
    let ms := computeModalityScores features (feature_importance m)
    { load_level := d.load_level, confidence := d.confidence,
      probLow := d.probLow, probMedium := d.probMedium, probHigh := d.probHigh,
      modalityVisual := ms.1, modalityBehavioral := ms.2.1,
      modalityAudio := ms.2.2,
      perModel := [("rf", d.perModelRf), ("xgb", d.perModelXgb),
        ("svm", d.perModelSvm)] }
  | _, _ => fallbackPrediction features

/-- A feature mapping whose fallback score is 2: elevated blink rate and
elevated error rate. -/
def demoHighFeatures : List (String × ℚ) :=
  [("vis_blink_rate", 30), ("beh_error_rate", 1/5)]

/-! ## Numeric and signal-processing primitives

Foreign library routines used by the feature extractors are collected in
a `Prims` record and every fusion theorem quantifies over them: numpy's
irrational kernels (square root, arctan2, the float value of pi) and the
librosa analyses (pyin fundamental-frequency track with NaN as `none`,
framed and default RMS, MFCC matrix, spectral centroid and rolloff,
zero-crossing rate, onset times), plus sklearn's StandardScaler fit.
The rational arithmetic around them is translated exactly. -/
structure Prims where
  sqrt : ℚ → ℚ
  arctan2 : ℚ → ℚ → ℚ
  piApprox : ℚ
  pyinF0 : List ℚ → ℕ → List (Option ℚ)
  rmsFrames : List ℚ → ℕ → ℕ → List ℚ
  rmsDefault : List ℚ → List ℚ
  mfcc : List ℚ → ℕ → ℕ → List (List ℚ)
  spectralCentroid : List ℚ → ℕ → List ℚ
  spectralRolloff : List ℚ → ℕ → ℚ → List ℚ
  zeroCrossingRate : List ℚ → List ℚ
  onsetTimes : List ℚ → ℕ → List ℚ
  fitStandardScaler : List (List ℚ) → ScalerParams

/-- Primitives that return zero everywhere, for evaluating theorems on
explicit inputs. -/
def trivialPrims : Prims :=
  { sqrt := fun _ => 0, arctan2 := fun _ _ => 0, piApprox := 0,
    pyinF0 := fun _ _ => [], rmsFrames := fun _ _ _ => [],
    rmsDefault := fun _ => [], mfcc := fun _ _ _ => [],
    spectralCentroid := fun _ _ => [], spectralRolloff := fun _ _ _ => [],
    zeroCrossingRate := fun _ => [], onsetTimes := fun _ _ => [],
    fitStandardScaler := fun _ => { mean := [], scale := [] } }

/-- np.mean.  On an empty array numpy returns NaN (with a warning, not an
error); here the empty case evaluates to 0 — no claim constrains those
values. -/
def npMean (xs : List ℚ) : ℚ := xs.sum / xs.length

/-- Population variance, the radicand of np.std. -/
def npVar (xs : List ℚ) : ℚ := npMean (xs.map fun x => (x - npMean xs) ^ 2)

/-- np.std = sqrt of the population variance. -/
def npStd (P : Prims) (xs : List ℚ) : ℚ := P.sqrt (npVar xs)

/-- np.min on a nonempty array (0 on empty, a case the code guards). -/
def npMinQ : List ℚ → ℚ
  | [] => 0
  | x :: xs => xs.foldl min x

/-- np.max on a nonempty array (0 on empty, a case the code guards). -/
def npMaxQ : List ℚ → ℚ
  | [] => 0
  | x :: xs => xs.foldl max x

/-- np.diff: consecutive differences. -/
def npDiff (xs : List ℚ) : List ℚ := List.zipWith (fun a b => b - a) xs xs.tail

/-- Componentwise difference of 2-D points. -/
def sub2 (a b : ℚ × ℚ) : ℚ × ℚ := (a.1 - b.1, a.2 - b.2)

/-- Componentwise difference of 3-D points. -/
def sub3 (a b : ℚ × ℚ × ℚ) : ℚ × ℚ × ℚ := (a.1 - b.1, a.2.1 - b.2.1, a.2.2 - b.2.2)

/-- np.linalg.norm of a 2-D vector. -/
def norm2 (P : Prims) (v : ℚ × ℚ) : ℚ := P.sqrt (v.1 ^ 2 + v.2 ^ 2)

/-- np.linalg.norm of a 3-D vector. -/
def norm3 (P : Prims) (v : ℚ × ℚ × ℚ) : ℚ := P.sqrt (v.1 ^ 2 + v.2.1 ^ 2 + v.2.2 ^ 2)

/-- Insert a rational into a sorted list (auxiliary to `sortRats`). -/
def insertRat (x : ℚ) : List ℚ → List ℚ
  | [] => [x]
  | y :: ys => if x ≤ y then x :: y :: ys else y :: insertRat x ys

/-- Python `sorted()` on numbers: insertion sort. -/
def sortRats : List ℚ → List ℚ
  | [] => []
  | x :: xs => insertRat x (sortRats xs)

/-! ## Visual features (ml/features/visual_features.py) -/
def LEFT_EYEBROW_IDX : List ℕ := [276, 283, 282, 295, 300]

def RIGHT_EYEBROW_IDX : List ℕ := [46, 53, 52, 65, 70]

def LEFT_EYE_IDX : List ℕ := [362, 385, 387, 263, 373, 380]

def RIGHT_EYE_IDX : List ℕ := [33, 160, 158, 133, 153, 144]

def MOUTH_TOP : ℕ := 13

def MOUTH_BOTTOM : ℕ := 14

def MOUTH_LEFT : ℕ := 78

def MOUTH_RIGHT : ℕ := 308

def LEFT_IRIS_IDX : List ℕ := [468, 469, 470, 471, 472]

def RIGHT_IRIS_IDX : List ℕ := [473, 474, 475, 476, 477]

/-- `_mouth_aspect_ratio` (visual_features.py lines 44-54). -/
def mouthAspectRatio (P : Prims) (lm : ℕ → ℚ × ℚ × ℚ) : ℚ :=
  let vertical := norm3 P (sub3 (lm MOUTH_TOP) (lm MOUTH_BOTTOM))
  let horizontal := norm3 P (sub3 (lm MOUTH_LEFT) (lm MOUTH_RIGHT))
  if horizontal = 0 then 0 else vertical / horizontal

/-- `_eyebrow_eye_distance` (visual_features.py lines 57-65): vertical
(y-coordinate) distances only, exact rational arithmetic. -/
def eyebrowEyeDistance (lm : ℕ → ℚ × ℚ × ℚ) : ℚ :=
  let leftBrowY := npMean (LEFT_EYEBROW_IDX.map fun i => (lm i).2.1)
  let leftEyeY := npMean (LEFT_EYE_IDX.map fun i => (lm i).2.1)
  let rightBrowY := npMean (RIGHT_EYEBROW_IDX.map fun i => (lm i).2.1)
  let rightEyeY := npMean (RIGHT_EYE_IDX.map fun i => (lm i).2.1)
  (|leftEyeY - leftBrowY| + |rightEyeY - rightBrowY|) / 2

/-- `_gaze_deviation` (visual_features.py lines 68-85): 0 when fewer than
478 landmarks, otherwise the mean distance of each iris center from its
eye center in the xy-plane. -/
def gazeDeviation (P : Prims) (f : LandmarkFrame) : ℚ :=
  if f.numLandmarks < 478 then 0
  else
    let meanXY := fun (idx : List ℕ) =>
      (npMean (idx.map fun i => (f.landmarks i).1),
       npMean (idx.map fun i => (f.landmarks i).2.1))
    let leftDev := norm2 P (sub2 (meanXY LEFT_IRIS_IDX) (meanXY LEFT_EYE_IDX))
    let rightDev := norm2 P (sub2 (meanXY RIGHT_IRIS_IDX) (meanXY RIGHT_EYE_IDX))
    (leftDev + rightDev) / 2

/-- The visual feature keys, in the shared insertion order of both the
real and the zero branch (visual_features.py lines 164-183 and 189-201). -/
def visualFeatureKeys : List String :=
  ["blink_count", "blink_rate", "ear_mean", "ear_std", "ear_min", "ear_range",
   "eyebrow_dist_mean", "eyebrow_dist_std", "mar_mean", "mar_std",
   "head_pitch_mean", "head_pitch_std", "head_yaw_std", "head_roll_std",
   "head_movement", "gaze_deviation_mean", "gaze_deviation_std",
   "face_presence"]

/-- `_zero_features` (visual_features.py lines 189-201). -/
def zeroVisualFeatures : List (String × ℚ) := visualFeatureKeys.map fun k => (k, 0)

/-- `extract_visual_features` (visual_features.py lines 88-186). -/
def extract_visual_features (P : Prims) (frames : List LandmarkFrame) (fps : ℕ) :
    List (String × ℚ) :=
  let valid := frames.filter fun f => f.face_detected
  if valid.isEmpty then zeroVisualFeatures
  else
    let window_sec : ℚ := (frames.length : ℚ) / ((max fps 1 : ℕ) : ℚ)
    let blink_count : ℚ := ((valid.filter fun f => f.blink_detected).length : ℚ)
    let blink_rate := if 0 < window_sec then blink_count / window_sec * 60 else 0
    let ears := valid.map fun f => f.avg_ear
    let browDists := valid.map fun f => eyebrowEyeDistance f.landmarks
    let mars := valid.map fun f => mouthAspectRatio P f.landmarks
    let pitches := valid.map fun f => f.headPitch
    let yaws := valid.map fun f => f.headYaw
    let rolls := valid.map fun f => f.headRoll
    let head_movement :=
      if 1 < pitches.length then
        npMean (List.zipWith (fun pv yv => P.sqrt (pv ^ 2 + yv ^ 2))
          (npDiff pitches) (npDiff yaws))
      else 0
    let gazeDevs := valid.map fun f => gazeDeviation P f
    let face_presence : ℚ := (valid.length : ℚ) / ((max frames.length 1 : ℕ) : ℚ)
    [("blink_count", blink_count), ("blink_rate", blink_rate),
     ("ear_mean", npMean ears), ("ear_std", npStd P ears),
     ("ear_min", npMinQ ears), ("ear_range", npMaxQ ears - npMinQ ears),
     ("eyebrow_dist_mean", npMean browDists),
     ("eyebrow_dist_std", npStd P browDists),
     ("mar_mean", npMean mars), ("mar_std", npStd P mars),
     ("head_pitch_mean", npMean pitches), ("head_pitch_std", npStd P pitches),
     ("head_yaw_std", npStd P yaws), ("head_roll_std", npStd P rolls),
     ("head_movement", head_movement),
     ("gaze_deviation_mean", npMean gazeDevs),
     ("gaze_deviation_std", npStd P gazeDevs),
     ("face_presence", face_presence)]

/-- The keystroke feature keys, shared order of the real and zero branch
(behavioral_features.py lines 108-118 and 123-129). -/
def keystrokeFeatureKeys : List String :=
  ["wpm", "key_count", "dwell_mean", "dwell_std", "flight_mean",
   "flight_std", "error_rate", "burst_rate", "pause_count"]

/-- `_zero_keystroke_features`. -/
def zeroKeystrokeFeatures : List (String × ℚ) :=
  keystrokeFeatureKeys.map fun k => (k, 0)

/-- One step of building `rel_by_key` (behavioral_features.py lines
68-70): append the release timestamp under its key. -/
def addRelease (mp : List (String × List ℚ)) (r : KeyEvent) : List (String × List ℚ) :=
  if (mp.lookup r.key).isSome then
    mp.map fun kv => if kv.1 == r.key then (kv.1, kv.2 ++ [r.timestamp]) else kv
  else mp ++ [(r.key, [r.timestamp])]

/-- The release-timestamp map keyed by key identity. -/
def relByKey (releases : List KeyEvent) : List (String × List ℚ) :=
  releases.foldl addRelease []

/-- One step of the dwell-time matching loop (behavioral_features.py lines
72-79): for a press, take the first not-yet-consumed release of the same
key at or after the press, record the dwell and consume it. -/
def dwellStep (st : List (String × List ℚ) × List ℚ) (p : KeyEvent) :
    List (String × List ℚ) × List ℚ :=
  match st.1.lookup p.key with
  | none => st
  | some ts =>
    if ts.isEmpty then st
    else
      match ts.findIdx? (fun rt => p.timestamp ≤ rt) with
      | none => st
      | some i =>
        (st.1.map fun kv => if kv.1 == p.key then (kv.1, kv.2.eraseIdx i) else kv,
         st.2 ++ [ts.getD i 0 - p.timestamp])

/-- The dwell times collected over all presses. -/
def dwellTimes (presses releases : List KeyEvent) : List ℚ :=
  (presses.foldl dwellStep (relByKey releases, [])).2

/-- `extract_keystroke_features` (behavioral_features.py lines 28-120).
The dead `release_map` built on line 65 and immediately rebuilt as
`rel_by_key` is omitted (it is never read). -/
def extract_keystroke_features (P : Prims) (events : List KeyEvent)
    (window_sec : ℚ) : List (String × ℚ) :=
  let presses := events.filter fun e => e.event_type == KeyEventType.press
  let releases := events.filter fun e => e.event_type == KeyEventType.release
  if presses.isEmpty then zeroKeystrokeFeatures
  else
    let key_count : ℚ := (presses.length : ℚ)
    let wpm := if 0 < window_sec then key_count / 5 / (window_sec / 60) else 0
    let dwells := dwellTimes presses releases
    let dwell_mean := if dwells.isEmpty then 0 else npMean dwells
    let dwell_std := if dwells.isEmpty then 0 else npStd P dwells
    let press_times := sortRats (presses.map fun p => p.timestamp)
    let flights := if 1 < press_times.length then npDiff press_times else []
    let flight_mean := if flights.isEmpty then 0 else npMean flights
    let flight_std := if flights.isEmpty then 0 else npStd P flights
    let error_count : ℚ := ((presses.filter fun p => p.is_error_key).length : ℚ)
    let error_rate := if 0 < key_count then error_count / key_count else 0
    let burst_rate :=
      if flights.isEmpty then 0
      else
        let active := flights.filter fun f => f < 1
        if active.isEmpty then 0 else 1 / npMean active
    let pause_count : ℚ := ((flights.filter fun f => 1 < f).length : ℚ)
    [("wpm", wpm), ("key_count", key_count), ("dwell_mean", dwell_mean),
     ("dwell_std", dwell_std), ("flight_mean", flight_mean),
     ("flight_std", flight_std), ("error_rate", error_rate),
     ("burst_rate", burst_rate), ("pause_count", pause_count)]

/-- The mouse feature keys, shared order of the real and zero branch
(behavioral_features.py lines 211-223 and 228-235). -/
def mouseFeatureKeys : List String :=
  ["mouse_distance", "mouse_velocity_mean", "mouse_velocity_std",
   "mouse_acceleration_mean", "click_count", "click_rate",
   "left_click_ratio", "scroll_total", "direction_changes", "idle_time",
   "movement_straightness"]

/-- `_zero_mouse_features`. -/
def zeroMouseFeatures : List (String × ℚ) := mouseFeatureKeys.map fun k => (k, 0)

/-- `extract_mouse_features` (behavioral_features.py lines 134-225). -/
def extract_mouse_features (P : Prims) (events : List MouseEvent)
    (window_sec : ℚ) : List (String × ℚ) :=
  let moves := events.filter fun e => e.event_type == MouseEventType.move
  let clicks := events.filter fun e =>
    e.event_type == MouseEventType.click && e.pressed == some true
  let scrolls := events.filter fun e => e.event_type == MouseEventType.scroll
  if moves.isEmpty then zeroMouseFeatures
  else
    let positions : List (ℚ × ℚ) := moves.map fun m => ((m.x : ℚ), (m.y : ℚ))
    let timestamps := moves.map fun m => m.timestamp
    let diffs := List.zipWith (fun a b => sub2 b a) positions positions.tail
    let distances := diffs.map (norm2 P)
    let dt := (npDiff timestamps).map fun d => if d = 0 then 1/1000000 else d
    let velocities := List.zipWith (fun dist d => dist / d) distances dt
    let mouse_distance := distances.sum
    let mouse_acceleration_mean :=
      if 1 < velocities.length then
        npMean ((List.zipWith (fun dv d => dv / d) (npDiff velocities) dt.tail).map
          fun a => |a|)
      else 0
    let click_count : ℚ := (clicks.length : ℚ)
    let click_rate := if 0 < window_sec then click_count / window_sec else 0
    let left_clicks : ℚ := ((clicks.filter fun c => c.button == some "left").length : ℚ)
    let left_click_ratio := if 0 < click_count then left_clicks / click_count else 0
    let scroll_total : ℚ := (scrolls.map fun s => ((|s.scroll_dy| : ℤ) : ℚ)).sum
    let direction_changes : ℚ :=
      if 1 < diffs.length then
        let angles := diffs.map fun d => P.arctan2 d.2 d.1
        (((npDiff angles).map fun a => |a|).filter fun a => P.piApprox / 4 < a).length
      else 0
    let idle_time := (dt.filter fun d => 1/2 < d).sum
    let displacement := norm2 P (sub2 (positions.getLastD (0, 0)) positions.headI)
    let movement_straightness :=
      if 0 < mouse_distance then displacement / mouse_distance else 1
    [("mouse_distance", mouse_distance),
     ("mouse_velocity_mean", npMean velocities),
     ("mouse_velocity_std", npStd P velocities),
     ("mouse_acceleration_mean", mouse_acceleration_mean),
     ("click_count", click_count), ("click_rate", click_rate),
     ("left_click_ratio", left_click_ratio), ("scroll_total", scroll_total),
     ("direction_changes", direction_changes), ("idle_time", idle_time),
     ("movement_straightness", movement_straightness)]

/-- N_MFCC (audio_features.py line 27). -/
def nMFCC : ℕ := 13

/-- `_extract_pitch` (audio_features.py lines 30-44): drop NaN entries of
the pyin track; mean and std of the rest, (0, 0) when none survive. -/
def extractPitch (P : Prims) (y : List ℚ) (sr : ℕ) : ℚ × ℚ :=
  let f0valid := (P.pyinF0 y sr).filterMap id
  if f0valid.isEmpty then (0, 0) else (npMean f0valid, npStd P f0valid)

/-- `_extract_jitter` (audio_features.py lines 47-63). -/
def extractJitter (P : Prims) (y : List ℚ) (sr : ℕ) : ℚ :=
  let f0valid := (P.pyinF0 y sr).filterMap id
  if f0valid.length < 2 then 0
  else
    let periods := f0valid.map fun f => 1 / f
    npMean ((npDiff periods).map fun d => |d|) / npMean periods

/-- `_extract_shimmer` (audio_features.py lines 66-84); the 25 ms and
10 ms frame sizes truncate as Python's int(). -/
def extractShimmer (P : Prims) (y : List ℚ) (sr : ℕ) : ℚ :=
  let rms := P.rmsFrames y (sr * 25 / 1000) (sr * 10 / 1000)
  if rms.length < 2 then 0
  else
    let meanRms := npMean rms
    if meanRms = 0 then 0 else npMean ((npDiff rms).map fun d => |d|) / meanRms

/-- `_extract_speaking_rate` (audio_features.py lines 87-100). -/
def extractSpeakingRate (P : Prims) (y : List ℚ) (sr : ℕ) : ℚ :=
  let onsets := P.onsetTimes y sr
  let duration : ℚ := (y.length : ℚ) / (sr : ℚ)
  if duration = 0 then 0 else (onsets.length : ℚ) / duration

/-- The audio feature keys, shared order of the real and zero branch
(audio_features.py lines 132-166 and 200-210). -/
def audioFeatureKeys : List String :=
  ["pitch_mean", "pitch_std", "jitter", "shimmer"]
  ++ ((List.range nMFCC).map fun i => "mfcc_" ++ toString (i + 1) ++ "_mean")
  ++ ["spectral_centroid", "spectral_rolloff", "rms_energy", "zcr",
      "speaking_rate"]

/-- `_zero_audio_features`. -/
def zeroAudioFeatures : List (String × ℚ) := audioFeatureKeys.map fun k => (k, 0)

/-- `extract_audio_features` (audio_features.py lines 103-167).  The
silence bail-out compares the peak amplitude against 1e-6.  On a chunk
with no samples numpy's reduction raises instead (see the audio
well-formedness hypothesis of the schema theorem). -/
def extract_audio_features (P : Prims) (chunk : AudioChunk) : List (String × ℚ) :=
  let y := chunk.samples
  let sr := chunk.sample_rate
  if npMaxQ (y.map fun s => |s|) < 1/1000000 then zeroAudioFeatures
  else
    let pm := extractPitch P y sr
    let mfccs := P.mfcc y sr nMFCC
    [("pitch_mean", pm.1), ("pitch_std", pm.2),
     ("jitter", extractJitter P y sr), ("shimmer", extractShimmer P y sr)]
    ++ ((List.range nMFCC).map fun i =>
        ("mfcc_" ++ toString (i + 1) ++ "_mean", npMean (mfccs.getD i [])))
    ++ [("spectral_centroid", npMean (P.spectralCentroid y sr)),
        ("spectral_rolloff", npMean (P.spectralRolloff y sr (85/100))),
        ("rms_energy", npMean (P.rmsDefault y)),
        ("zcr", npMean (P.zeroCrossingRate y)),
        ("speaking_rate", extractSpeakingRate P y sr)]

/-- `extract_audio_features_window` (audio_features.py lines 170-197):
zeros when there are no chunks, otherwise one extraction over the
concatenated samples with the first chunk's rate and timestamp. -/
def extract_audio_features_window (P : Prims) (chunks : List AudioChunk) :
    List (String × ℚ) :=
  match chunks with
  | [] => zeroAudioFeatures
  | c0 :: _ =>
    let allSamples := (chunks.map fun c => c.samples).flatten
    extract_audio_features P
      { timestamp := c0.timestamp, samples := allSamples,
        sample_rate := c0.sample_rate,
        duration_sec := (allSamples.length : ℚ) / (c0.sample_rate : ℚ) }

/-- The engine state: configuration, the four modality buffers, and the
optional fitted scaler with its flag (fusion.py lines 61-78). -/
structure FusionState where
  windowSec : ℚ
  fps : ℕ
  landmarkFrames : List LandmarkFrame
  keystrokeEvents : List KeyEvent
  mouseEvents : List MouseEvent
  audioChunks : List AudioChunk
  scaler : Option ScalerParams
  isFitted : Bool

/-- FeatureFusionEngine.__init__: empty buffers, no scaler, not fitted. -/
def mkFusionEngine (windowSec : ℚ) (fps : ℕ) : FusionState :=
  { windowSec := windowSec, fps := fps, landmarkFrames := [],
    keystrokeEvents := [], mouseEvents := [], audioChunks := [],
    scaler := none, isFitted := false }

/-- push_landmark_frame (fusion.py lines 82-85): append then trim against
the now sampled by the trim. -/
def push_landmark_frame (now : ℚ) (st : FusionState) (f : LandmarkFrame) : FusionState :=
  { st with landmarkFrames :=
      trimVisualBuffer (now - st.windowSec) (st.landmarkFrames ++ [f]) }

/-- push_keystroke_events (fusion.py lines 92-95). -/
def push_keystroke_events (now : ℚ) (st : FusionState) (es : List KeyEvent) : FusionState :=
  { st with keystrokeEvents :=
      trimKeystrokeBuffer (now - st.windowSec) (st.keystrokeEvents ++ es) }

/-- push_mouse_events (fusion.py lines 97-100). -/
def push_mouse_events (now : ℚ) (st : FusionState) (es : List MouseEvent) : FusionState :=
  { st with mouseEvents :=
      trimMouseBuffer (now - st.windowSec) (st.mouseEvents ++ es) }

/-- push_audio_chunk (fusion.py lines 102-105). -/
def push_audio_chunk (now : ℚ) (st : FusionState) (c : AudioChunk) : FusionState :=
  { st with audioChunks :=
      trimAudioBuffer (now - st.windowSec) (st.audioChunks ++ [c]) }

/-- clear_buffers (fusion.py lines 237-243). -/
def clear_buffers (st : FusionState) : FusionState :=
  { st with
    landmarkFrames := []
    keystrokeEvents := []
    mouseEvents := []
    audioChunks := [] }

/-- FeatureFusionEngine.extract (fusion.py lines 143-183): the four
extractor outputs merged in call order under the fixed modality prefixes.
The prefixed keys are pairwise distinct, so this association list is the
Python dict in insertion order. -/
def extract (P : Prims) (st : FusionState) : List (String × ℚ) :=
  (extract_visual_features P st.landmarkFrames st.fps).map
      (fun kv => ("vis_" ++ kv.1, kv.2))
    ++ (extract_keystroke_features P st.keystrokeEvents st.windowSec).map
      (fun kv => ("beh_" ++ kv.1, kv.2))
    ++ (extract_mouse_features P st.mouseEvents st.windowSec).map
      (fun kv => ("beh_" ++ kv.1, kv.2))
    ++ (extract_audio_features_window P st.audioChunks).map
      (fun kv => ("aud_" ++ kv.1, kv.2))

/-- FeatureFusionEngine.extract_array (fusion.py lines 185-197): the
extracted values listed under the alphabetically sorted key order. -/
def extract_array (P : Prims) (st : FusionState) : List ℚ :=
  let features := extract P st
  (sortStrings (features.map Prod.fst)).map fun k => (features.lookup k).getD 0

/-- FeatureFusionEngine.get_feature_names (fusion.py lines 199-202). -/
def get_feature_names (P : Prims) (st : FusionState) : List String :=
  sortStrings ((extract P st).map Prod.fst)

/-- FeatureFusionEngine.fit_scaler (fusion.py lines 206-216): store the
scaler fitted by sklearn (a foreign call, a `Prims` field) and set the
flag. -/
def fit_scaler (P : Prims) (st : FusionState) (matrix : List (List ℚ)) : FusionState :=
  { st with scaler := some (P.fitStandardScaler matrix), isFitted := true }

/-- A 1-D or 2-D feature array, the two shapes normalize accepts. -/
inductive FeatArr where
  | one (row : List ℚ)
  | two (rows : List (List ℚ))
deriving DecidableEq

/-- FeatureFusionEngine.normalize (fusion.py lines 218-233): identity
passthrough unless a scaler is fitted, otherwise the scaler transform
applied to the row or to every row. -/
def normalize (st : FusionState) (x : FeatArr) : FeatArr :=
  match st.isFitted, st.scaler with
  | true, some p =>
    match x with
    | .one r => .one (transformRow p r)
    | .two rs => .two (rs.map (transformRow p))
  | _, _ => x

/-- The full fused key list: the four extractor key lists under their
modality prefixes, in extract's merge order. -/
def fusedKeys : List String :=
  visualFeatureKeys.map (fun k => "vis_" ++ k)
    ++ keystrokeFeatureKeys.map (fun k => "beh_" ++ k)
    ++ mouseFeatureKeys.map (fun k => "beh_" ++ k)
    ++ audioFeatureKeys.map (fun k => "aud_" ++ k)

/-- The prefixed keystroke keys (the keystroke slice of the beh_
namespace). -/
def ksKeysPrefixed : List String := keystrokeFeatureKeys.map fun k => "beh_" ++ k

/-- The prefixed mouse keys (the mouse slice of the beh_ namespace). -/
def mouseKeysPrefixed : List String := mouseFeatureKeys.map fun k => "beh_" ++ k

/-- The prefixed zero visual block. -/
def zeroVisualPrefixed : List (String × ℚ) :=
  zeroVisualFeatures.map fun kv => ("vis_" ++ kv.1, kv.2)

/-- The prefixed zero keystroke block. -/
def zeroKeystrokePrefixed : List (String × ℚ) :=
  zeroKeystrokeFeatures.map fun kv => ("beh_" ++ kv.1, kv.2)

/-- The prefixed zero mouse block. -/
def zeroMousePrefixed : List (String × ℚ) :=
  zeroMouseFeatures.map fun kv => ("beh_" ++ kv.1, kv.2)

/-- The prefixed zero audio block. -/
def zeroAudioPrefixed : List (String × ℚ) :=
  zeroAudioFeatures.map fun kv => ("aud_" ++ kv.1, kv.2)

/-! ## Theorems -/

/-! ### Queue lemmas -/
theorem queuePush_length_le {cap : ℕ} (hcap : 1 ≤ cap) (q : List AudioChunk)
    (hq : q.length ≤ cap) (c : AudioChunk) : (queuePush cap q c).length ≤ cap := by
  unfold queuePush
  split
  · next h =>
    simp only [List.length_append, List.length_cons, List.length_nil]
    omega
  · next h =>
    simp only [List.length_append, List.length_drop, List.length_cons, List.length_nil]
    omega

theorem queuePushAll_drop {cap : ℕ} (hcap : 1 ≤ cap) :
    ∀ (cs : List AudioChunk) (q : List AudioChunk), q.length ≤ cap →
      queuePushAll cap q cs = (q ++ cs).drop (q.length + cs.length - cap) := by
  intro cs
  induction cs with
  | nil =>
    intro q hq
    have h0 : q.length - cap = 0 := by omega
    simp [queuePushAll, h0]
  | cons c rest ih =>
    intro q hq
    show queuePushAll cap (queuePush cap q c) rest = _
    by_cases h : q.length < cap
    · have hpush : queuePush cap q c = q ++ [c] := by
        unfold queuePush; simp [h]
      rw [hpush, ih (q ++ [c]) (by simp; omega)]
      simp only [List.append_assoc, List.length_append, List.length_cons, List.length_nil,
        List.singleton_append]
      congr 1
      omega
    · have hlen : q.length = cap := by omega
      have hne : q ≠ [] := by
        intro hnil
        rw [hnil] at hlen
        simp at hlen
        omega
      have hpush : queuePush cap q c = q.drop 1 ++ [c] := by
        unfold queuePush; simp [h]
      have hlen' : (q.drop 1 ++ [c]).length = cap := by
        simp only [List.length_append, List.length_drop, List.length_cons, List.length_nil]
        omega
      rw [hpush, ih (q.drop 1 ++ [c]) (by omega)]
      rw [hlen', hlen]
      have harith : cap + rest.length - cap = rest.length := by omega
      have harith2 : cap + (rest.length + 1) - cap = rest.length + 1 := by omega
      simp only [List.length_cons, harith, harith2]
      obtain ⟨a, q', rfl⟩ : ∃ a q', q = a :: q' := by
        cases q with
        | nil => exact absurd rfl hne
        | cons a q' => exact ⟨a, q', rfl⟩
      simp [List.drop_succ_cons]

/-- Claim C2: pushing M > N chunks into the capacity-N drop-oldest queue with
no pops never blocks the producer (the push is a total function built from
non-blocking `put_nowait` and `get_nowait`) and leaves exactly the N
most-recently-pushed chunks in arrival order: the result is the length-N
suffix of the pushed sequence. -/
theorem C2_queue_drop_oldest_law (cap : ℕ) (cs : List AudioChunk)
    (hcap : 1 ≤ cap) (hM : cap < cs.length) :
    queuePushAll cap [] cs = cs.drop (cs.length - cap)
    ∧ (queuePushAll cap [] cs).length = cap := by
  have h := queuePushAll_drop hcap cs [] (by simp)
  simp only [List.nil_append, List.length_nil, Nat.zero_add] at h
  refine ⟨h, ?_⟩
  rw [h, List.length_drop]
  omega

/-- Evaluation of Claim C2 on the spec's Scenario A: chunks timestamped
0, 1, 2 pushed into a capacity-2 queue leave exactly the chunks
timestamped 1 and 2. -/
theorem C2_queue_drop_oldest_law_witness :
    queuePushAll 2 [] [chunkAt 0, chunkAt 1, chunkAt 2] = [chunkAt 1, chunkAt 2] := by
  have h := (C2_queue_drop_oldest_law 2 [chunkAt 0, chunkAt 1, chunkAt 2]
    (by decide) (by decide)).1
  rw [h]
  decide

/-! ### Trim lemmas -/
theorem trimVisualBuffer_suffix (c : ℚ) :
    ∀ fs : List LandmarkFrame, trimVisualBuffer c fs <:+ fs := by
  intro fs
  induction fs with
  | nil => exact List.suffix_refl _
  | cons f rest ih =>
    unfold trimVisualBuffer
    split
    · exact ih.trans (List.suffix_cons f rest)
    · exact List.suffix_refl _

theorem trimVisualBuffer_mem_of_ge (c : ℚ) :
    ∀ fs : List LandmarkFrame, ∀ f ∈ fs, c ≤ f.timestamp → f ∈ trimVisualBuffer c fs := by
  intro fs
  induction fs with
  | nil => intro f hf; exact absurd hf (List.not_mem_nil f)
  | cons g rest ih =>
    intro f hf hge
    unfold trimVisualBuffer
    split
    · next hlt =>
      rcases List.mem_cons.mp hf with h | h
      · subst h; exact absurd hlt (not_lt.mpr hge)
      · exact ih f h hge
    · exact hf

theorem trimVisualBuffer_head_ge (c : ℚ) :
    ∀ fs : List LandmarkFrame, trimVisualBuffer c fs = [] ∨
      ∃ g rest, trimVisualBuffer c fs = g :: rest ∧ c ≤ g.timestamp := by
  intro fs
  induction fs with
  | nil => exact Or.inl rfl
  | cons f rest ih =>
    unfold trimVisualBuffer
    split
    · exact ih
    · next h => exact Or.inr ⟨f, rest, rfl, not_lt.mp h⟩

theorem trimVisualBuffer_idem {c c' : ℚ} (hcc : c' ≤ c) (fs : List LandmarkFrame) :
    trimVisualBuffer c' (trimVisualBuffer c fs) = trimVisualBuffer c fs := by
  rcases trimVisualBuffer_head_ge c fs with h | ⟨g, rest, heq, hge⟩
  · rw [h]; rfl
  · rw [heq]
    unfold trimVisualBuffer
    rw [if_neg (not_lt.mpr (hcc.trans hge))]

theorem trimVisualBuffer_sorted_all {c : ℚ} :
    ∀ {fs : List LandmarkFrame},
      fs.Pairwise (fun a b => a.timestamp ≤ b.timestamp) →
      ∀ f ∈ trimVisualBuffer c fs, ¬ f.timestamp < c := by
  intro fs
  induction fs with
  | nil => intro _ f hf; exact absurd hf (List.not_mem_nil f)
  | cons g rest ih =>
    intro hsort f hf
    rw [List.pairwise_cons] at hsort
    unfold trimVisualBuffer at hf
    split at hf
    · exact ih hsort.2 f hf
    · next hglt =>
      rcases List.mem_cons.mp hf with h | h
      · subst h; exact hglt
      · exact not_lt.mpr ((not_lt.mp hglt).trans (hsort.1 f h))

/-- Contract of a filter-style trim, generic in the element type and its
timestamp projection: nothing older than the cutoff survives, survivors are
a subsequence (order preserved), every element at or after the cutoff is
kept, and re-trimming with the same or an earlier cutoff removes nothing. -/
theorem filter_trim_contract {α : Type} (ts : α → ℚ) (c c' : ℚ) (hcc : c' ≤ c)
    (l : List α) :
    (∀ e ∈ l.filter (fun e => c ≤ ts e), ¬ ts e < c)
    ∧ List.Sublist (l.filter (fun e => c ≤ ts e)) l
    ∧ (∀ e ∈ l, c ≤ ts e → e ∈ l.filter (fun e => c ≤ ts e))
    ∧ (l.filter (fun e => c ≤ ts e)).filter (fun e => c' ≤ ts e)
        = l.filter (fun e => c ≤ ts e) := by
  refine ⟨?_, List.filter_sublist l, ?_, ?_⟩
  · intro e he
    have h := (List.mem_filter.mp he).2
    simp only [decide_eq_true_eq] at h
    exact not_lt.mpr h
  · intro e he hge
    exact List.mem_filter.mpr ⟨he, by simpa using hge⟩
  · rw [List.filter_eq_self]
    intro e he
    have h := (List.mem_filter.mp he).2
    simp only [decide_eq_true_eq] at h ⊢
    linarith

/-- Claim C9 counterexample: the visual-buffer trim is a pop-from-the-head
loop that stops at the first retained frame, so on a buffer that is not in
timestamp order (frame at t=10 followed by frame at t=0) a trim with cutoff
5 leaves a frame with timestamp 0 < 5 in the buffer, refuting the claim
that after trim(cutoff) no buffered item has timestamp below the cutoff. -/
theorem C9_trim_visual_counterexample :
    (trimVisualBuffer 5 [frameAt 10, frameAt 0]).any
      (fun f => decide (f.timestamp < 5)) = true := by
  decide

/-- Claim C9 (amended): for the keystroke, mouse and audio buffers the trim
keeps exactly the items with timestamp at or after the cutoff, in order,
and is idempotent under equal or earlier cutoffs, for every buffer.  For
the visual buffer the no-stale-item property holds whenever the buffer is
in nondecreasing timestamp order (as produced by in-order pushes), while
retention of items at or after the cutoff (in order, as a suffix) and
idempotence hold for every visual buffer, out-of-order ones included:
only the no-stale-item conjunct carries the sortedness hypothesis. -/
theorem C9_trim_contract (c c' : ℚ) (hcc : c' ≤ c)
    (es : List KeyEvent) (ms : List MouseEvent) (cs : List AudioChunk) :
    ((∀ e ∈ trimKeystrokeBuffer c es, ¬ e.timestamp < c)
      ∧ List.Sublist (trimKeystrokeBuffer c es) es
      ∧ (∀ e ∈ es, c ≤ e.timestamp → e ∈ trimKeystrokeBuffer c es)
      ∧ trimKeystrokeBuffer c' (trimKeystrokeBuffer c es) = trimKeystrokeBuffer c es)
    ∧ ((∀ e ∈ trimMouseBuffer c ms, ¬ e.timestamp < c)
      ∧ List.Sublist (trimMouseBuffer c ms) ms
      ∧ (∀ e ∈ ms, c ≤ e.timestamp → e ∈ trimMouseBuffer c ms)
      ∧ trimMouseBuffer c' (trimMouseBuffer c ms) = trimMouseBuffer c ms)
    ∧ ((∀ a ∈ trimAudioBuffer c cs, ¬ a.timestamp < c)
      ∧ List.Sublist (trimAudioBuffer c cs) cs
      ∧ (∀ a ∈ cs, c ≤ a.timestamp → a ∈ trimAudioBuffer c cs)
      ∧ trimAudioBuffer c' (trimAudioBuffer c cs) = trimAudioBuffer c cs)
    ∧ ((∀ fs : List LandmarkFrame,
          fs.Pairwise (fun a b => a.timestamp ≤ b.timestamp) →
          ∀ f ∈ trimVisualBuffer c fs, ¬ f.timestamp < c)
      ∧ (∀ fs : List LandmarkFrame, trimVisualBuffer c fs <:+ fs)
      ∧ (∀ fs : List LandmarkFrame,
          ∀ f ∈ fs, c ≤ f.timestamp → f ∈ trimVisualBuffer c fs)
      ∧ (∀ fs : List LandmarkFrame,
          trimVisualBuffer c' (trimVisualBuffer c fs) = trimVisualBuffer c fs)) := by
  have hks := filter_trim_contract (fun e : KeyEvent => e.timestamp) c c' hcc es
  have hms := filter_trim_contract (fun e : MouseEvent => e.timestamp) c c' hcc ms
  have haud := filter_trim_contract (fun a : AudioChunk => a.timestamp) c c' hcc cs
  refine ⟨?_, ?_, ?_,
    fun fs hsorted f hf => trimVisualBuffer_sorted_all hsorted f hf,
    fun fs => trimVisualBuffer_suffix c fs,
    fun fs => trimVisualBuffer_mem_of_ge c fs,
    fun fs => trimVisualBuffer_idem hcc fs⟩
  · unfold trimKeystrokeBuffer
    exact hks
  · unfold trimMouseBuffer
    exact hms
  · unfold trimAudioBuffer
    exact haud

/-- Evaluation of Claim C9 on explicit inputs: with cutoffs 5 and 3, the
trimmed keystroke buffer of events at t=1 and t=7 holds no stale event;
the visual trim is idempotent even at the out-of-order buffer of the
counterexample (frames at t=10 then t=0); and on the sorted visual buffer
of frames at t=1 and t=7 no stale frame survives. -/
theorem C9_trim_contract_witness :
    (∀ e ∈ trimKeystrokeBuffer 5 [keyEvAt 1, keyEvAt 7], ¬ e.timestamp < 5)
    ∧ trimVisualBuffer 3 (trimVisualBuffer 5 [frameAt 10, frameAt 0])
        = trimVisualBuffer 5 [frameAt 10, frameAt 0]
    ∧ (∀ f ∈ trimVisualBuffer 5 [frameAt 1, frameAt 7], ¬ f.timestamp < 5) := by
  have h := C9_trim_contract 5 3 (by norm_num) [keyEvAt 1, keyEvAt 7] [] []
  refine ⟨h.1.1, h.2.2.2.2.2.2 [frameAt 10, frameAt 0], ?_⟩
  exact h.2.2.2.1 [frameAt 1, frameAt 7]
    (by
      refine List.Pairwise.cons ?_ (List.Pairwise.cons ?_ List.Pairwise.nil)
      · intro b hb
        rcases List.mem_cons.mp hb with hb | hb
        · subst hb; norm_num [frameAt]
        · exact absurd hb (List.not_mem_nil b)
      · intro b hb
        exact absurd hb (List.not_mem_nil b))

/-- Claim C3: with non-negative weights not all zero, and base classifiers
whose probability rows each sum to 1, every row of predict_proba sums to
exactly 1 — in particular to 1 within the claimed 1e-6 tolerance. -/
theorem C3_predict_proba_row_sum {ι : Type} (m : EnsembleModel ι) (X : List ι)
    (hrf : 0 ≤ m.weights.rf) (hxgb : 0 ≤ m.weights.xgb) (hsvm : 0 ≤ m.weights.svm)
    (hnz : ¬(m.weights.rf = 0 ∧ m.weights.xgb = 0 ∧ m.weights.svm = 0))
    (hrows : ∀ x ∈ X, rowSum (m.rf.proba x) = 1 ∧ rowSum (m.xgb.proba x) = 1
      ∧ rowSum (m.svm.proba x) = 1) :
    ∀ p ∈ predict_proba m X, rowSum p = 1 ∧ |rowSum p - 1| ≤ 1 / 1000000 := by
  intro p hp
  have htot : 0 < totalWeight m := by
    unfold totalWeight
    rcases lt_or_eq_of_le hrf with h | h
    · linarith
    rcases lt_or_eq_of_le hxgb with h' | h'
    · linarith
    rcases lt_or_eq_of_le hsvm with h'' | h''
    · linarith
    exact absurd ⟨h.symm, h'.symm, h''.symm⟩ hnz
  rcases List.mem_map.mp hp with ⟨x, hx, rfl⟩
  obtain ⟨h1, h2, h3⟩ := hrows x hx
  unfold rowSum at h1 h2 h3 ⊢
  have hsum :
      (m.weights.rf * m.rf.proba x 0 + m.weights.xgb * m.xgb.proba x 0
          + m.weights.svm * m.svm.proba x 0) / totalWeight m
        + (m.weights.rf * m.rf.proba x 1 + m.weights.xgb * m.xgb.proba x 1
          + m.weights.svm * m.svm.proba x 1) / totalWeight m
        + (m.weights.rf * m.rf.proba x 2 + m.weights.xgb * m.xgb.proba x 2
          + m.weights.svm * m.svm.proba x 2) / totalWeight m = 1 := by
    rw [div_add_div_same, div_add_div_same, div_eq_one_iff_eq htot.ne']
    unfold totalWeight
    linear_combination m.weights.rf * h1 + m.weights.xgb * h2 + m.weights.svm * h3
  refine ⟨hsum, ?_⟩
  rw [hsum]
  norm_num

/-- Evaluation of Claim C3 on an explicit ensemble: unit weights over three
uniform base rows give a first predicted row summing to exactly 1. -/
theorem C3_predict_proba_row_sum_witness :
    rowSum ((predict_proba unitEnsemble [()]).headI) = 1 := by
  have h := C3_predict_proba_row_sum unitEnsemble [()]
    (by norm_num [unitEnsemble]) (by norm_num [unitEnsemble]) (by norm_num [unitEnsemble])
    (by norm_num [unitEnsemble])
    (by
      intro x hx
      refine ⟨?_, ?_, ?_⟩ <;> norm_num [rowSum, unitEnsemble, baseConst])
  exact (h ((predict_proba unitEnsemble [()]).headI)
    (by simp [predict_proba])).1

/-- Claim C4 counterexample: an ensemble constructed with all three
combination weights zero is accepted — the constructor stores the
degenerate weights without any validation — and the first predict_proba
call divides by the zero total weight instead of raising: the divisor
total_w is 0 and the returned row sums to 0 rather than 1 (Python float
arithmetic produces non-finite entries here; the exact-rational embedding
evaluates division by zero to 0 — in neither semantics is an error
raised). -/
theorem C4_degenerate_weights_counterexample :
    (ensembleInit "voting" (some ⟨0, 0, 0⟩) (baseConst (1/3)) (baseConst (1/3))
        (baseConst (1/3))).weights = ⟨0, 0, 0⟩
    ∧ totalWeight (ensembleInit "voting" (some ⟨0, 0, 0⟩) (baseConst (1/3))
        (baseConst (1/3)) (baseConst (1/3))) = 0
    ∧ (predict_proba (ensembleInit "voting" (some ⟨0, 0, 0⟩) (baseConst (1/3))
        (baseConst (1/3)) (baseConst (1/3))) [()]).map rowSum = [0] := by
  refine ⟨rfl, by norm_num [totalWeight, ensembleInit], ?_⟩
  simp [predict_proba, rowSum, totalWeight, ensembleInit, baseConst]

/-- Claim C4 (amended): all-zero weights are not rejected.  Construction
succeeds and stores the degenerate configuration, the predict_proba
divisor is zero, and every output row of the first prediction sums to 0
instead of 1 — the division by zero happens silently (non-finite values in
Python floats, 0 under total rational division), with no error at
construction or first use. -/
theorem C4_degenerate_weights_not_rejected {ι : Type}
    (rf xgb svm : BaseModel ι) (X : List ι) :
    (ensembleInit "voting" (some ⟨0, 0, 0⟩) rf xgb svm).weights = ⟨0, 0, 0⟩
    ∧ totalWeight (ensembleInit "voting" (some ⟨0, 0, 0⟩) rf xgb svm) = 0
    ∧ ∀ p ∈ predict_proba (ensembleInit "voting" (some ⟨0, 0, 0⟩) rf xgb svm) X,
        rowSum p = 0 := by
  refine ⟨rfl, by norm_num [totalWeight, ensembleInit], ?_⟩
  intro p hp
  rcases List.mem_map.mp hp with ⟨x, hx, rfl⟩
  simp [rowSum, totalWeight, ensembleInit]

/-- Claim C5 counterexample: loading a bundle with the three classifiers
but no feature-name ordering does fail outright (a KeyError on
feature_names), but the model state is not left unchanged: the three
classifier models have already been replaced by the bundle's before the
failing key access, so the rf classifier afterwards returns 1 where the
pre-load classifier returned 0. -/
theorem C5_load_counterexample :
    (ensembleLoad modelBefore bundleNoNames).2 = some "KeyError: feature_names"
    ∧ (ensembleLoad modelBefore bundleNoNames).1.rf.proba () 0 = 1
    ∧ modelBefore.rf.proba () 0 = 0 := by
  exact ⟨rfl, rfl, rfl⟩

/-- Claim C5 (amended): a load that finds the three classifiers but no
feature-name ordering fails outright with an error rather than completing;
however the load is not atomic: the three classifier models have already
been reassigned to the bundle's classifiers when the failure occurs, while
the feature names, combination weights, method and trained flag are still
unchanged from before the call. -/
theorem C5_load_missing_feature_names {ι : Type} (m : EnsembleModel ι)
    (d : SavedBundle ι) (prf pxgb psvm : ι → Fin 3 → ℚ)
    (hrf : d.rf = some prf) (hxgb : d.xgb = some pxgb) (hsvm : d.svm = some psvm)
    (hnames : d.feature_names = none) :
    (ensembleLoad m d).2 = some "KeyError: feature_names"
    ∧ (ensembleLoad m d).1.rf.proba = prf
    ∧ (ensembleLoad m d).1.xgb.proba = pxgb
    ∧ (ensembleLoad m d).1.svm.proba = psvm
    ∧ (ensembleLoad m d).1.featureNames = m.featureNames
    ∧ (ensembleLoad m d).1.weights = m.weights
    ∧ (ensembleLoad m d).1.method = m.method
    ∧ (ensembleLoad m d).1.isTrained = m.isTrained := by
  unfold ensembleLoad
  rw [hrf, hxgb, hsvm, hnames]
  exact ⟨rfl, rfl, rfl, rfl, rfl, rfl, rfl, rfl⟩

/-- Evaluation of Claim C5 on explicit inputs: the pre-load weights and
trained flag survive the failed load while the error is reported. -/
theorem C5_load_missing_feature_names_witness :
    (ensembleLoad modelBefore bundleNoNames).2 = some "KeyError: feature_names"
    ∧ (ensembleLoad modelBefore bundleNoNames).1.weights = ⟨1, 1, 1⟩
    ∧ (ensembleLoad modelBefore bundleNoNames).1.isTrained = false := by
  have h := C5_load_missing_feature_names modelBefore bundleNoNames
    (fun _ _ => 1) (fun _ _ => 1) (fun _ _ => 1) rfl rfl rfl rfl
  exact ⟨h.1, h.2.2.2.2.2.1.trans rfl, h.2.2.2.2.2.2.2.trans rfl⟩

/-- np.argmax on a row picks an index attaining the maximum, and among
tied maxima the lowest index. -/
theorem argmaxRow_first_max (p : Fin 3 → ℚ) :
    (∀ j : Fin 3, p j ≤ p (argmaxRow p))
    ∧ (∀ j : Fin 3, p j = p (argmaxRow p) → argmaxRow p ≤ j) := by
  unfold argmaxRow
  split_ifs with h1 h2 h3 <;>
    refine ⟨fun j => ?_, fun j hj => ?_⟩ <;>
    fin_cases j <;>
    simp_all [Fin.le_def] <;>
    linarith

/-- Claim C7: predict is the row-wise argmax of predict_proba, a pure
function of the model and input (no randomness appears in the embedding),
and on every predicted row the chosen class attains the maximal
probability while any tied class has an index at least as large. -/
theorem C7_predict_argmax_lowest_tie {ι : Type} (m : EnsembleModel ι) (X : List ι) :
    predict m X = (predict_proba m X).map argmaxRow
    ∧ ∀ p ∈ predict_proba m X,
        (∀ j : Fin 3, p j ≤ p (argmaxRow p))
        ∧ (∀ j : Fin 3, p j = p (argmaxRow p) → argmaxRow p ≤ j) := by
  exact ⟨rfl, fun p _ => argmaxRow_first_max p⟩

/-- Evaluation of Claim C7 on an explicit ensemble whose single row is the
all-tied uniform row: the predicted class is index 0, the lowest of the
three tied maximal classes. -/
theorem C7_predict_argmax_lowest_tie_witness :
    predict unitEnsemble [()] = [0]
    ∧ argmaxRow ((predict_proba unitEnsemble [()]).headI) ≤ (1 : Fin 3) := by
  have h := C7_predict_argmax_lowest_tie unitEnsemble [()]
  have hp : (predict_proba unitEnsemble [()]).headI
      ∈ predict_proba unitEnsemble [()] := by
    simp [predict_proba]
  have htie := (h.2 _ hp).2 1 (by
    simp only [predict_proba, unitEnsemble, baseConst, totalWeight, List.map,
      List.headI])
  refine ⟨?_, htie⟩
  rw [h.1]
  simp only [predict_proba, unitEnsemble, baseConst, totalWeight, List.map]
  norm_num [argmaxRow]

theorem abs_roundHalfEven_sub_le (q : ℚ) : |(roundHalfEven q : ℚ) - q| ≤ 1/2 := by
  have hfr : Int.fract q = q - ⌊q⌋ := rfl
  have h0 : (0:ℚ) ≤ Int.fract q := Int.fract_nonneg q
  have h1 : Int.fract q < 1 := Int.fract_lt_one q
  unfold roundHalfEven
  split_ifs with hlt hgt heven <;>
    rw [abs_le] <;> constructor <;> push_cast <;> linarith

theorem abs_round3_sub_le (q : ℚ) : |round3 q - q| ≤ 1/2000 := by
  unfold round3
  have h := abs_roundHalfEven_sub_le (q * 1000)
  have heq : (roundHalfEven (q * 1000) : ℚ) / 1000 - q
      = ((roundHalfEven (q * 1000) : ℚ) - q * 1000) / 1000 := by ring
  rw [heq, abs_div]
  have h1000 : |(1000:ℚ)| = 1000 := by norm_num
  rw [h1000]
  linarith [abs_nonneg ((roundHalfEven (q * 1000) : ℚ) - q * 1000)]

/-- The accumulation loop written as three independent indicator sums,
with an arbitrary starting accumulator. -/
theorem modalitySums_foldl (features : List (String × ℚ)) :
    ∀ (importance : List (String × ℚ)) (acc : ℚ × ℚ × ℚ),
      importance.foldl
        (fun acc ni =>
          let weighted := |ni.2 * ((features.lookup ni.1).getD 0)|
          if strStarts ni.1 "vis_" then (acc.1 + weighted, acc.2.1, acc.2.2)
          else if strStarts ni.1 "beh_" then (acc.1, acc.2.1 + weighted, acc.2.2)
          else if strStarts ni.1 "aud_" then (acc.1, acc.2.1, acc.2.2 + weighted)
          else acc)
        acc
      = (acc.1 + (importance.map fun ni =>
            if strStarts ni.1 "vis_"
            then |ni.2 * ((features.lookup ni.1).getD 0)| else 0).sum,
         acc.2.1 + (importance.map fun ni =>
            if strStarts ni.1 "vis_" then 0
            else if strStarts ni.1 "beh_"
            then |ni.2 * ((features.lookup ni.1).getD 0)| else 0).sum,
         acc.2.2 + (importance.map fun ni =>
            if strStarts ni.1 "vis_" then 0
            else if strStarts ni.1 "beh_" then 0
            else if strStarts ni.1 "aud_"
            then |ni.2 * ((features.lookup ni.1).getD 0)| else 0).sum) := by
  intro importance
  induction importance with
  | nil => intro acc; simp
  | cons ni rest ih =>
    intro acc
    simp only [List.foldl_cons, List.map_cons, List.sum_cons]
    rw [ih]
    cases hv : strStarts ni.1 "vis_" <;> cases hb : strStarts ni.1 "beh_" <;>
      cases ha : strStarts ni.1 "aud_" <;>
      simp only [hv, hb, ha, if_true, if_false, Bool.false_eq_true, Bool.true_eq_false] <;>
      refine Prod.ext ?_ (Prod.ext ?_ ?_) <;> simp <;> ring

/-- The sum of three values rounded after normalization stays within
3/2000 of 1. -/
theorem round3_triple_sum {a b c t : ℚ} (ht : 0 < t) (habc : a + b + c = t) :
    |round3 (a/t) + round3 (b/t) + round3 (c/t) - 1| ≤ 3/2000 := by
  have hsum : a/t + b/t + c/t = 1 := by
    rw [div_add_div_same, div_add_div_same, habc, div_self ht.ne']
  have h1 := abs_round3_sub_le (a/t)
  have h2 := abs_round3_sub_le (b/t)
  have h3 := abs_round3_sub_le (c/t)
  have key : round3 (a/t) + round3 (b/t) + round3 (c/t) - 1
      = (round3 (a/t) - a/t) + (round3 (b/t) - b/t) + (round3 (c/t) - c/t) := by
    rw [← hsum]; ring
  rw [key]
  have A := abs_add ((round3 (a/t) - a/t) + (round3 (b/t) - b/t)) (round3 (c/t) - c/t)
  have B := abs_add (round3 (a/t) - a/t) (round3 (b/t) - b/t)
  linarith

/-- Claim C6: modality attribution accumulates the weight
abs(importance × value) of each importance entry into the bucket selected
by its namespace prefix (the three buckets written as indicator sums
honouring the if/elif precedence); when the bucket total is positive it
returns each bucket divided by the total (rounded to three decimals, so
the returned triple sums to 1 within 3/2000); when the total is zero it
returns exactly the fallback triple (0.33, 0.33, 0.34). -/
theorem C6_modality_attribution (features importance : List (String × ℚ)) :
    (modalitySums features importance
      = ((importance.map fun ni =>
            if strStarts ni.1 "vis_"
            then |ni.2 * ((features.lookup ni.1).getD 0)| else 0).sum,
         (importance.map fun ni =>
            if strStarts ni.1 "vis_" then 0
            else if strStarts ni.1 "beh_"
            then |ni.2 * ((features.lookup ni.1).getD 0)| else 0).sum,
         (importance.map fun ni =>
            if strStarts ni.1 "vis_" then 0
            else if strStarts ni.1 "beh_" then 0
            else if strStarts ni.1 "aud_"
            then |ni.2 * ((features.lookup ni.1).getD 0)| else 0).sum))
    ∧ (0 < modalityTotal features importance →
        computeModalityScores features importance
          = (round3 ((modalitySums features importance).1
                / modalityTotal features importance),
             round3 ((modalitySums features importance).2.1
                / modalityTotal features importance),
             round3 ((modalitySums features importance).2.2
                / modalityTotal features importance))
        ∧ |(computeModalityScores features importance).1
            + (computeModalityScores features importance).2.1
            + (computeModalityScores features importance).2.2 - 1| ≤ 3/2000)
    ∧ (modalityTotal features importance = 0 →
        computeModalityScores features importance = (33/100, 33/100, 34/100)) := by
  refine ⟨?_, ?_, ?_⟩
  · unfold modalitySums
    rw [modalitySums_foldl]
    simp
  · intro ht
    have hcs : computeModalityScores features importance
        = (round3 ((modalitySums features importance).1
              / modalityTotal features importance),
           round3 ((modalitySums features importance).2.1
              / modalityTotal features importance),
           round3 ((modalitySums features importance).2.2
              / modalityTotal features importance)) := by
      unfold computeModalityScores
      rw [if_pos ht]
    refine ⟨hcs, ?_⟩
    rw [hcs]
    exact round3_triple_sum ht rfl
  · intro ht
    unfold computeModalityScores
    rw [if_neg (by rw [ht]; exact lt_irrefl 0)]

/-- Evaluation of Claim C6 on explicit inputs with a positive total: the
returned attribution triple sums to 1 within 3/2000. -/
theorem C6_modality_attribution_witness :
    |(computeModalityScores [("vis_blink_rate", 2)] [("vis_blink_rate", 3)]).1
      + (computeModalityScores [("vis_blink_rate", 2)] [("vis_blink_rate", 3)]).2.1
      + (computeModalityScores [("vis_blink_rate", 2)] [("vis_blink_rate", 3)]).2.2
      - 1| ≤ 3/2000 := by
  have hpos : (0:ℚ) < modalityTotal [("vis_blink_rate", 2)] [("vis_blink_rate", 3)] := by
    norm_num [modalityTotal, modalitySums, List.foldl, List.lookup,
      show strStarts "vis_blink_rate" "vis_" = true from rfl]
  exact ((C6_modality_attribution [("vis_blink_rate", 2)]
    [("vis_blink_rate", 3)]).2.1 hpos).2

/-- Claim C10: with no trained model loaded, predict returns the fallback
for every feature mapping; the fallback's probability triple is the
constant (0.33, 0.34, 0.33) and its modality triple the constant
(0.33, 0.33, 0.34) independent of the features; and on a concrete input
whose threshold score reaches 2 the reported level is high even though
the medium class holds the strictly largest reported probability. -/
theorem C10_fallback_prediction (st : ScoringState) (features : List (String × ℚ))
    (h : st.isLoaded = false ∨ st.model = none) :
    scoringPredict st features = fallbackPrediction features
    ∧ (fallbackPrediction features).probLow = 33/100
    ∧ (fallbackPrediction features).probMedium = 34/100
    ∧ (fallbackPrediction features).probHigh = 33/100
    ∧ (fallbackPrediction features).modalityVisual = 33/100
    ∧ (fallbackPrediction features).modalityBehavioral = 33/100
    ∧ (fallbackPrediction features).modalityAudio = 34/100
    ∧ (fallbackPrediction demoHighFeatures).load_level = "high"
    ∧ (fallbackPrediction demoHighFeatures).probLow
        < (fallbackPrediction demoHighFeatures).probMedium
    ∧ (fallbackPrediction demoHighFeatures).probHigh
        < (fallbackPrediction demoHighFeatures).probMedium := by
  have hfb : scoringPredict st features = fallbackPrediction features := by
    rcases h with h | h
    · unfold scoringPredict
      rw [h]
      cases hm : st.model <;> rfl
    · unfold scoringPredict
      rw [h]
  have hlevel : (fallbackPrediction demoHighFeatures).load_level = "high" := by
    unfold fallbackPrediction demoHighFeatures
    norm_num [List.lookup,
      show ("beh_error_rate" == "vis_blink_rate") = false from rfl,
      show ("aud_pitch_std" == "vis_blink_rate") = false from rfl,
      show ("aud_pitch_std" == "beh_error_rate") = false from rfl,
      show ("vis_head_movement" == "vis_blink_rate") = false from rfl,
      show ("vis_head_movement" == "beh_error_rate") = false from rfl,
      show ("aud_jitter" == "vis_blink_rate") = false from rfl,
      show ("aud_jitter" == "beh_error_rate") = false from rfl]
  exact ⟨hfb, rfl, rfl, rfl, rfl, rfl, rfl, hlevel,
    by norm_num [fallbackPrediction], by norm_num [fallbackPrediction]⟩

/-- Evaluation of Claim C10 on explicit inputs: an unloaded scoring state
falls back on every input, and on the concrete high-score input the level
is high while medium holds the largest probability. -/
theorem C10_fallback_prediction_witness :
    scoringPredict { model := none, scaler := none, isLoaded := false }
        demoHighFeatures = fallbackPrediction demoHighFeatures
    ∧ (fallbackPrediction demoHighFeatures).load_level = "high"
    ∧ (fallbackPrediction demoHighFeatures).probHigh
        < (fallbackPrediction demoHighFeatures).probMedium := by
  have h := C10_fallback_prediction
    { model := none, scaler := none, isLoaded := false } demoHighFeatures
    (Or.inl rfl)
  exact ⟨h.1, h.2.2.2.2.2.2.2.1, h.2.2.2.2.2.2.2.2.2⟩

/-- Both branches of the visual extractor carry the same key list. -/
theorem extract_visual_features_keys (P : Prims) (frames : List LandmarkFrame)
    (fps : ℕ) :
    (extract_visual_features P frames fps).map Prod.fst = visualFeatureKeys := by
  by_cases h : (frames.filter fun f => f.face_detected).isEmpty = true
  · simp only [extract_visual_features]
    rw [if_pos h]
    rfl
  · simp only [extract_visual_features]
    rw [if_neg h]
    rfl

/-- Both branches of the keystroke extractor carry the same key list. -/
theorem extract_keystroke_features_keys (P : Prims) (events : List KeyEvent)
    (w : ℚ) :
    (extract_keystroke_features P events w).map Prod.fst = keystrokeFeatureKeys := by
  by_cases h :
      (events.filter fun e => e.event_type == KeyEventType.press).isEmpty = true
  · simp only [extract_keystroke_features]
    rw [if_pos h]
    rfl
  · simp only [extract_keystroke_features]
    rw [if_neg h]
    rfl

/-- Both branches of the mouse extractor carry the same key list. -/
theorem extract_mouse_features_keys (P : Prims) (events : List MouseEvent)
    (w : ℚ) :
    (extract_mouse_features P events w).map Prod.fst = mouseFeatureKeys := by
  by_cases h :
      (events.filter fun e => e.event_type == MouseEventType.move).isEmpty = true
  · simp only [extract_mouse_features]
    rw [if_pos h]
    rfl
  · simp only [extract_mouse_features]
    rw [if_neg h]
    rfl

/-- Both branches of the single-chunk audio extractor carry the same key
list. -/
theorem extract_audio_features_keys (P : Prims) (chunk : AudioChunk) :
    (extract_audio_features P chunk).map Prod.fst = audioFeatureKeys := by
  by_cases h : npMaxQ (chunk.samples.map fun s => |s|) < 1/1000000
  · simp only [extract_audio_features]
    rw [if_pos h]
    rfl
  · simp only [extract_audio_features]
    rw [if_neg h]
    rfl

/-- The windowed audio extractor carries the same key list for every
buffer. -/
theorem extract_audio_features_window_keys (P : Prims) (chunks : List AudioChunk) :
    (extract_audio_features_window P chunks).map Prod.fst = audioFeatureKeys := by
  cases chunks with
  | nil => rfl
  | cons c0 rest =>
    simp only [extract_audio_features_window]
    exact extract_audio_features_keys P _

/-- Mapping fst over a prefixed block is prefixing the block's keys. -/
theorem map_fst_prefixed (pre : String) (l : List (String × ℚ)) :
    (l.map fun kv => (pre ++ kv.1, kv.2)).map Prod.fst
      = (l.map Prod.fst).map fun k => pre ++ k := by
  induction l with
  | nil => rfl
  | cons a t ih => simp only [List.map_cons, ih]

/-- The fused key list of extract is fixed, whatever the buffers hold. -/
theorem extract_keys (P : Prims) (st : FusionState) :
    (extract P st).map Prod.fst = fusedKeys := by
  unfold extract fusedKeys
  rw [List.map_append, List.map_append, List.map_append,
    map_fst_prefixed, map_fst_prefixed, map_fst_prefixed, map_fst_prefixed,
    extract_visual_features_keys, extract_keystroke_features_keys,
    extract_mouse_features_keys, extract_audio_features_window_keys]

/-- A filter on keys drops a block none of whose keys satisfies it. -/
theorem filter_map_fst_none (p : String → Bool) (l : List (String × ℚ))
    (h : (l.map Prod.fst).all (fun k => !(p k)) = true) :
    l.filter (fun kv => p kv.1) = [] := by
  induction l with
  | nil => rfl
  | cons a t ih =>
    simp only [List.map_cons, List.all_cons, Bool.and_eq_true,
      Bool.not_eq_true'] at h
    rw [List.filter_cons, if_neg (by simp [h.1])]
    exact ih h.2

/-- A filter on keys keeps a block all of whose keys satisfy it. -/
theorem filter_map_fst_all (p : String → Bool) (l : List (String × ℚ))
    (h : (l.map Prod.fst).all p = true) :
    l.filter (fun kv => p kv.1) = l := by
  rw [List.filter_eq_self]
  intro a ha
  exact List.all_eq_true.mp h a.1 (List.mem_map_of_mem Prod.fst ha)

/-- Claim C1: for every state of the four modality buffers, extract
returns a mapping with the fixed 60-key schema (the keys, their count and
their order never vary), every key carries one of the prefixes vis_,
beh_, aud_, a modality that yields no usable data contributes exactly its
canonical zero block, and extract_array lists the values of exactly those
keys under the alphabetically sorted key order, so its length and
ordering are invariant.  The audio well-formedness hypothesis (nonempty
samples, positive rate) marks the domain on which the Python extraction
returns instead of raising inside numpy, which the capture pipeline's
chunks always satisfy. -/
theorem C1_extract_fixed_schema (P : Prims) (st : FusionState)
    (_hwf : ∀ c ∈ st.audioChunks, c.samples ≠ [] ∧ 0 < c.sample_rate) :
    (extract P st).map Prod.fst = fusedKeys
    ∧ fusedKeys.Nodup
    ∧ fusedKeys.length = 60
    ∧ (∀ k ∈ fusedKeys,
        (strStarts k "vis_" || strStarts k "beh_" || strStarts k "aud_") = true)
    ∧ (st.landmarkFrames.filter (fun f => f.face_detected) = [] →
        (extract P st).filter (fun kv => strStarts kv.1 "vis_") = zeroVisualPrefixed)
    ∧ (st.keystrokeEvents.filter (fun e => e.event_type == KeyEventType.press) = [] →
        (extract P st).filter (fun kv => ksKeysPrefixed.contains kv.1)
          = zeroKeystrokePrefixed)
    ∧ (st.mouseEvents.filter (fun e => e.event_type == MouseEventType.move) = [] →
        (extract P st).filter (fun kv => mouseKeysPrefixed.contains kv.1)
          = zeroMousePrefixed)
    ∧ (st.audioChunks = [] →
        (extract P st).filter (fun kv => strStarts kv.1 "aud_") = zeroAudioPrefixed)
    ∧ extract_array P st
        = (sortStrings fusedKeys).map (fun k => ((extract P st).lookup k).getD 0)
    ∧ (extract_array P st).length = 60
    ∧ (sortStrings fusedKeys).Pairwise (fun a b => strLe a b = true)
    ∧ (sortStrings fusedKeys).Perm fusedKeys := by
  have hkeys := extract_keys P st
  have harr : extract_array P st
      = (sortStrings fusedKeys).map (fun k => ((extract P st).lookup k).getD 0) := by
    simp only [extract_array]
    rw [hkeys]
  have hvisK := extract_visual_features_keys P st.landmarkFrames st.fps
  have hksK := extract_keystroke_features_keys P st.keystrokeEvents st.windowSec
  have hmsK := extract_mouse_features_keys P st.mouseEvents st.windowSec
  have haudK := extract_audio_features_window_keys P st.audioChunks
  refine ⟨hkeys, by decide, by decide, by decide, ?_, ?_, ?_, ?_, harr, ?_,
    by decide, by decide⟩
  · -- no valid face frame: the vis_ block is the zero block
    intro hV
    have hzero : extract_visual_features P st.landmarkFrames st.fps
        = zeroVisualFeatures := by
      simp only [extract_visual_features]
      rw [hV]
      rfl
    unfold extract
    rw [List.filter_append, List.filter_append, List.filter_append, hzero]
    rw [filter_map_fst_all (fun k => strStarts k "vis_") _
        (by rw [map_fst_prefixed]
            simp only [zeroVisualFeatures, List.map_map]
            decide),
      filter_map_fst_none (fun k => strStarts k "vis_") _
        (by rw [map_fst_prefixed, hksK]; decide),
      filter_map_fst_none (fun k => strStarts k "vis_") _
        (by rw [map_fst_prefixed, hmsK]; decide),
      filter_map_fst_none (fun k => strStarts k "vis_") _
        (by rw [map_fst_prefixed, haudK]; decide)]
    simp [zeroVisualPrefixed]
  · -- no key press: the keystroke slice of beh_ is the zero block
    intro hKS
    have hzero : extract_keystroke_features P st.keystrokeEvents st.windowSec
        = zeroKeystrokeFeatures := by
      simp only [extract_keystroke_features]
      rw [hKS]
      rfl
    unfold extract
    rw [List.filter_append, List.filter_append, List.filter_append, hzero]
    rw [filter_map_fst_none (fun k => ksKeysPrefixed.contains k) _
        (by rw [map_fst_prefixed, hvisK]; decide),
      filter_map_fst_all (fun k => ksKeysPrefixed.contains k) _
        (by rw [map_fst_prefixed]
            simp only [zeroKeystrokeFeatures, List.map_map]
            decide),
      filter_map_fst_none (fun k => ksKeysPrefixed.contains k) _
        (by rw [map_fst_prefixed, hmsK]; decide),
      filter_map_fst_none (fun k => ksKeysPrefixed.contains k) _
        (by rw [map_fst_prefixed, haudK]; decide)]
    simp [zeroKeystrokePrefixed]
  · -- no mouse move: the mouse slice of beh_ is the zero block
    intro hMS
    have hzero : extract_mouse_features P st.mouseEvents st.windowSec
        = zeroMouseFeatures := by
      simp only [extract_mouse_features]
      rw [hMS]
      rfl
    unfold extract
    rw [List.filter_append, List.filter_append, List.filter_append, hzero]
    rw [filter_map_fst_none (fun k => mouseKeysPrefixed.contains k) _
        (by rw [map_fst_prefixed, hvisK]; decide),
      filter_map_fst_none (fun k => mouseKeysPrefixed.contains k) _
        (by rw [map_fst_prefixed, hksK]; decide),
      filter_map_fst_all (fun k => mouseKeysPrefixed.contains k) _
        (by rw [map_fst_prefixed]
            simp only [zeroMouseFeatures, List.map_map]
            decide),
      filter_map_fst_none (fun k => mouseKeysPrefixed.contains k) _
        (by rw [map_fst_prefixed, haudK]; decide)]
    simp [zeroMousePrefixed]
  · -- empty audio buffer: the aud_ block is the zero block
    intro hA
    have hzero : extract_audio_features_window P st.audioChunks
        = zeroAudioFeatures := by
      rw [hA]
      rfl
    unfold extract
    rw [List.filter_append, List.filter_append, List.filter_append, hzero]
    rw [filter_map_fst_none (fun k => strStarts k "aud_") _
        (by rw [map_fst_prefixed, hvisK]; decide),
      filter_map_fst_none (fun k => strStarts k "aud_") _
        (by rw [map_fst_prefixed, hksK]; decide),
      filter_map_fst_none (fun k => strStarts k "aud_") _
        (by rw [map_fst_prefixed, hmsK]; decide),
      filter_map_fst_all (fun k => strStarts k "aud_") _
        (by rw [map_fst_prefixed]
            simp only [zeroAudioFeatures, List.map_map]
            decide)]
    simp [zeroAudioPrefixed]
  · rw [harr, List.length_map]
    decide

/-- Evaluation of Claim C1 on an explicit fresh engine (all buffers
empty) with the trivial primitives: the key list is the fixed schema and
the array has the fixed length 60. -/
theorem C1_extract_fixed_schema_witness :
    (extract trivialPrims (mkFusionEngine 5 15)).map Prod.fst = fusedKeys
    ∧ (extract_array trivialPrims (mkFusionEngine 5 15)).length = 60 := by
  have h := C1_extract_fixed_schema trivialPrims (mkFusionEngine 5 15)
    (by simp [mkFusionEngine])
  exact ⟨h.1, h.2.2.2.2.2.2.2.2.2.1⟩

/-- Claim C8: a fresh engine is unfitted with no scaler, none of the
buffer operations touches the scaler state, and on every unfitted state
normalize returns its argument unchanged (identity passthrough, no
error), for 1-D and 2-D arrays alike. -/
theorem C8_normalize_passthrough (st : FusionState) (x : FeatArr) (w : ℚ)
    (fps : ℕ) (h : st.isFitted = false) :
    normalize st x = x
    ∧ (mkFusionEngine w fps).isFitted = false
    ∧ (mkFusionEngine w fps).scaler = none
    ∧ (∀ now f, (push_landmark_frame now st f).isFitted = st.isFitted
        ∧ (push_landmark_frame now st f).scaler = st.scaler)
    ∧ (∀ now es, (push_keystroke_events now st es).isFitted = st.isFitted
        ∧ (push_keystroke_events now st es).scaler = st.scaler)
    ∧ (∀ now es, (push_mouse_events now st es).isFitted = st.isFitted
        ∧ (push_mouse_events now st es).scaler = st.scaler)
    ∧ (∀ now c, (push_audio_chunk now st c).isFitted = st.isFitted
        ∧ (push_audio_chunk now st c).scaler = st.scaler)
    ∧ (clear_buffers st).isFitted = st.isFitted
    ∧ (clear_buffers st).scaler = st.scaler := by
  refine ⟨?_, rfl, rfl, fun _ _ => ⟨rfl, rfl⟩, fun _ _ => ⟨rfl, rfl⟩,
    fun _ _ => ⟨rfl, rfl⟩, fun _ _ => ⟨rfl, rfl⟩, rfl, rfl⟩
  unfold normalize
  rw [h]

/-- Evaluation of Claim C8 on an explicit fresh engine and 1-D array:
normalize is the identity. -/
theorem C8_normalize_passthrough_witness :
    normalize (mkFusionEngine 5 15) (FeatArr.one [1, 2]) = FeatArr.one [1, 2] :=
  (C8_normalize_passthrough (mkFusionEngine 5 15) (FeatArr.one [1, 2]) 5 15 rfl).1

end CogniSense
